import Mathlib

/-
Shallow embedding of `meilisearch-types/src/error.rs`: the error
classification and response-mapping subsystem of the service.  It embeds
the Code catalog (`Code::err_code`), the ErrorCode capability and its
default-derived operations, the origin mappings for storage-engine and
embedded key-value-store errors, the terminal `ResponseError` value with
its serde field (de)serialization, and the deserialization error builder
for `MeiliDeserError`.  Theorems at the end settle the specification
claims about this subsystem.
-/

namespace Meili

/-- HTTP status codes, modelled by their numeric value
(`actix_web::http::StatusCode` in the source). -/
abbrev StatusCode := Nat

/-- `StatusCode::INTERNAL_SERVER_ERROR`. -/
def StatusCode.INTERNAL_SERVER_ERROR : StatusCode := 500

/-- `StatusCode::CONFLICT`. -/
def StatusCode.CONFLICT : StatusCode := 409

/-- `StatusCode::NOT_FOUND`. -/
def StatusCode.NOT_FOUND : StatusCode := 404

/-- `StatusCode::BAD_REQUEST`. -/
def StatusCode.BAD_REQUEST : StatusCode := 400

/-- `StatusCode::FORBIDDEN`. -/
def StatusCode.FORBIDDEN : StatusCode := 403

/-- `StatusCode::UNAUTHORIZED`. -/
def StatusCode.UNAUTHORIZED : StatusCode := 401

/-- `StatusCode::PAYLOAD_TOO_LARGE`. -/
def StatusCode.PAYLOAD_TOO_LARGE : StatusCode := 413

/-- `StatusCode::UNSUPPORTED_MEDIA_TYPE`. -/
def StatusCode.UNSUPPORTED_MEDIA_TYPE : StatusCode := 415

/-- The coarse error-type classification, embedding `enum ErrorType`
(error.rs lines 98-102). -/
inductive ErrorType
  | InternalError
  | InvalidRequestError
  | AuthenticationError
deriving DecidableEq

/-- Embeds `impl fmt::Display for ErrorType` (error.rs lines 104-114). -/
def ErrorType.display : ErrorType → String
  | .InternalError => "internal"
  | .InvalidRequestError => "invalid_request"
  | .AuthenticationError => "auth"

/-- The closed catalog of domain error kinds, embedding `enum Code`
(error.rs lines 116-185), in source order.  The source variant `Sort` is
spelled `Sort_` here because `Sort` is a Lean keyword. -/
inductive Code
  | CreateIndex
  | IndexAlreadyExists
  | IndexNotFound
  | InvalidIndexUid
  | InvalidMinWordLengthForTypo
  | DuplicateIndexFound
  | InvalidState
  | MissingPrimaryKey
  | PrimaryKeyAlreadyPresent
  | MaxFieldsLimitExceeded
  | MissingDocumentId
  | InvalidDocumentId
  | Filter
  | Sort_
  | BadParameter
  | BadRequest
  | DatabaseSizeLimitReached
  | DocumentNotFound
  | Internal
  | InvalidGeoField
  | InvalidRankingRule
  | InvalidStore
  | InvalidToken
  | MissingAuthorizationHeader
  | MissingMasterKey
  | NoSpaceLeftOnDevice
  | DumpNotFound
  | InvalidTaskDateFilter
  | InvalidTaskStatusesFilter
  | InvalidTaskTypesFilter
  | InvalidTaskCanceledByFilter
  | InvalidTaskUidsFilter
  | TaskNotFound
  | TaskDeletionWithEmptyQuery
  | TaskCancelationWithEmptyQuery
  | PayloadTooLarge
  | RetrieveDocument
  | SearchDocuments
  | UnsupportedMediaType
  | DumpAlreadyInProgress
  | DumpProcessFailed
  | UnretrievableErrorCode
  | InvalidContentType
  | MissingContentType
  | MalformedPayload
  | MissingPayload
  | ApiKeyNotFound
  | MissingParameter
  | InvalidApiKeyActions
  | InvalidApiKeyIndexes
  | InvalidApiKeyExpiresAt
  | InvalidApiKeyDescription
  | InvalidApiKeyName
  | InvalidApiKeyUid
  | ImmutableField
  | ApiKeyAlreadyExists
deriving DecidableEq

/-- The ephemeral descriptor computed from a `Code`, embedding
`struct ErrCode` (error.rs lines 353-357). -/
structure ErrCode where
  status_code : StatusCode
  error_type : ErrorType
  error_name : String
deriving DecidableEq

/-- Embeds `ErrCode::authentication` (error.rs lines 360-362). -/
def ErrCode.authentication (error_name : String) (status_code : StatusCode) : ErrCode :=
  { status_code := status_code, error_name := error_name,
    error_type := ErrorType.AuthenticationError }

/-- Embeds `ErrCode::internal` (error.rs lines 364-366). -/
def ErrCode.internal (error_name : String) (status_code : StatusCode) : ErrCode :=
  { status_code := status_code, error_name := error_name,
    error_type := ErrorType.InternalError }

/-- Embeds `ErrCode::invalid` (error.rs lines 368-370). -/
def ErrCode.invalid (error_name : String) (status_code : StatusCode) : ErrCode :=
  { status_code := status_code, error_name := error_name,
    error_type := ErrorType.InvalidRequestError }

/-- The catalog lookup, embedding `Code::err_code` (error.rs lines 189-329)
arm by arm, in source order. -/
def Code.err_code : Code → ErrCode
  | .CreateIndex =>
    ErrCode.internal "index_creation_failed" StatusCode.INTERNAL_SERVER_ERROR
  | .IndexAlreadyExists => ErrCode.invalid "index_already_exists" StatusCode.CONFLICT
  | .IndexNotFound => ErrCode.invalid "index_not_found" StatusCode.NOT_FOUND
  | .InvalidIndexUid => ErrCode.invalid "invalid_index_uid" StatusCode.BAD_REQUEST
  | .InvalidState => ErrCode.internal "invalid_state" StatusCode.INTERNAL_SERVER_ERROR
  | .MissingPrimaryKey =>
    ErrCode.invalid "primary_key_inference_failed" StatusCode.BAD_REQUEST
  | .PrimaryKeyAlreadyPresent =>
    ErrCode.invalid "index_primary_key_already_exists" StatusCode.BAD_REQUEST
  | .InvalidRankingRule => ErrCode.invalid "invalid_ranking_rule" StatusCode.BAD_REQUEST
  | .InvalidStore =>
    ErrCode.internal "invalid_store_file" StatusCode.INTERNAL_SERVER_ERROR
  | .MaxFieldsLimitExceeded =>
    ErrCode.invalid "max_fields_limit_exceeded" StatusCode.BAD_REQUEST
  | .MissingDocumentId => ErrCode.invalid "missing_document_id" StatusCode.BAD_REQUEST
  | .InvalidDocumentId => ErrCode.invalid "invalid_document_id" StatusCode.BAD_REQUEST
  | .Filter => ErrCode.invalid "invalid_filter" StatusCode.BAD_REQUEST
  | .Sort_ => ErrCode.invalid "invalid_sort" StatusCode.BAD_REQUEST
  | .BadParameter => ErrCode.invalid "bad_parameter" StatusCode.BAD_REQUEST
  | .BadRequest => ErrCode.invalid "bad_request" StatusCode.BAD_REQUEST
  | .DatabaseSizeLimitReached =>
    ErrCode.internal "database_size_limit_reached" StatusCode.INTERNAL_SERVER_ERROR
  | .DocumentNotFound => ErrCode.invalid "document_not_found" StatusCode.NOT_FOUND
  | .Internal => ErrCode.internal "internal" StatusCode.INTERNAL_SERVER_ERROR
  | .InvalidGeoField => ErrCode.invalid "invalid_geo_field" StatusCode.BAD_REQUEST
  | .InvalidToken => ErrCode.authentication "invalid_api_key" StatusCode.FORBIDDEN
  | .MissingAuthorizationHeader =>
    ErrCode.authentication "missing_authorization_header" StatusCode.UNAUTHORIZED
  | .MissingMasterKey =>
    ErrCode.authentication "missing_master_key" StatusCode.UNAUTHORIZED
  | .InvalidTaskDateFilter =>
    ErrCode.invalid "invalid_task_date_filter" StatusCode.BAD_REQUEST
  | .InvalidTaskUidsFilter =>
    ErrCode.invalid "invalid_task_uids_filter" StatusCode.BAD_REQUEST
  | .InvalidTaskStatusesFilter =>
    ErrCode.invalid "invalid_task_statuses_filter" StatusCode.BAD_REQUEST
  | .InvalidTaskTypesFilter =>
    ErrCode.invalid "invalid_task_types_filter" StatusCode.BAD_REQUEST
  | .InvalidTaskCanceledByFilter =>
    ErrCode.invalid "invalid_task_canceled_by_filter" StatusCode.BAD_REQUEST
  | .TaskNotFound => ErrCode.invalid "task_not_found" StatusCode.NOT_FOUND
  | .TaskDeletionWithEmptyQuery =>
    ErrCode.invalid "missing_task_filters" StatusCode.BAD_REQUEST
  | .TaskCancelationWithEmptyQuery =>
    ErrCode.invalid "missing_task_filters" StatusCode.BAD_REQUEST
  | .DumpNotFound => ErrCode.invalid "dump_not_found" StatusCode.NOT_FOUND
  | .NoSpaceLeftOnDevice =>
    ErrCode.internal "no_space_left_on_device" StatusCode.INTERNAL_SERVER_ERROR
  | .PayloadTooLarge => ErrCode.invalid "payload_too_large" StatusCode.PAYLOAD_TOO_LARGE
  | .RetrieveDocument => ErrCode.internal "unretrievable_document" StatusCode.BAD_REQUEST
  | .SearchDocuments => ErrCode.internal "search_error" StatusCode.BAD_REQUEST
  | .UnsupportedMediaType =>
    ErrCode.invalid "unsupported_media_type" StatusCode.UNSUPPORTED_MEDIA_TYPE
  | .DumpAlreadyInProgress => ErrCode.invalid "dump_already_processing" StatusCode.CONFLICT
  | .DumpProcessFailed =>
    ErrCode.internal "dump_process_failed" StatusCode.INTERNAL_SERVER_ERROR
  | .MissingContentType =>
    ErrCode.invalid "missing_content_type" StatusCode.UNSUPPORTED_MEDIA_TYPE
  | .MalformedPayload => ErrCode.invalid "malformed_payload" StatusCode.BAD_REQUEST
  | .InvalidContentType =>
    ErrCode.invalid "invalid_content_type" StatusCode.UNSUPPORTED_MEDIA_TYPE
  | .MissingPayload => ErrCode.invalid "missing_payload" StatusCode.BAD_REQUEST
  | .UnretrievableErrorCode =>
    ErrCode.invalid "unretrievable_error_code" StatusCode.BAD_REQUEST
  | .ApiKeyNotFound => ErrCode.invalid "api_key_not_found" StatusCode.NOT_FOUND
  | .MissingParameter => ErrCode.invalid "missing_parameter" StatusCode.BAD_REQUEST
  | .InvalidApiKeyActions =>
    ErrCode.invalid "invalid_api_key_actions" StatusCode.BAD_REQUEST
  | .InvalidApiKeyIndexes =>
    ErrCode.invalid "invalid_api_key_indexes" StatusCode.BAD_REQUEST
  | .InvalidApiKeyExpiresAt =>
    ErrCode.invalid "invalid_api_key_expires_at" StatusCode.BAD_REQUEST
  | .InvalidApiKeyDescription =>
    ErrCode.invalid "invalid_api_key_description" StatusCode.BAD_REQUEST
  | .InvalidApiKeyName => ErrCode.invalid "invalid_api_key_name" StatusCode.BAD_REQUEST
  | .InvalidApiKeyUid => ErrCode.invalid "invalid_api_key_uid" StatusCode.BAD_REQUEST
  | .ApiKeyAlreadyExists => ErrCode.invalid "api_key_already_exists" StatusCode.CONFLICT
  | .ImmutableField => ErrCode.invalid "immutable_field" StatusCode.BAD_REQUEST
  | .InvalidMinWordLengthForTypo =>
    ErrCode.invalid "invalid_min_word_length_for_typo" StatusCode.BAD_REQUEST
  | .DuplicateIndexFound => ErrCode.invalid "duplicate_index_found" StatusCode.BAD_REQUEST

/-- Embeds `Code::http` (error.rs lines 332-334). -/
def Code.http (c : Code) : StatusCode := c.err_code.status_code

/-- Embeds `Code::name` (error.rs lines 337-339). -/
def Code.name (c : Code) : String := c.err_code.error_name

/-- Embeds `Code::type_` (error.rs lines 342-344), rendering the error
type to its display string. -/
def Code.type_ (c : Code) : String := c.err_code.error_type.display

/-- Embeds `Code::url` (error.rs lines 347-349). -/
def Code.url (c : Code) : String := "https://docs.meilisearch.com/errors#" ++ c.name

/-- The terminal error value sent to clients, embedding
`struct ResponseError` (error.rs lines 14-25).  The `code` field carries
the HTTP status and is skipped by serialization (`serde(skip)`); the three
`error_*` fields are serialized under the names `code`, `type`, `link`. -/
structure ResponseError where
  code : StatusCode
  message : String
  error_code : String
  error_type : String
  error_link : String
deriving DecidableEq

/-- Embeds `ResponseError::from_msg` (error.rs lines 28-36). -/
def ResponseError.from_msg (message : String) (code : Code) : ResponseError :=
  { code := code.http
    message := message
    error_code := code.err_code.error_name
    error_type := code.type_
    error_link := code.url }

/-- The ErrorCode capability: an implementation for an error type `E`
supplies `error_code` (the required trait method, error.rs line 74) and
the textual rendering `toString` (from the `std::error::Error` supertrait
Display bound, error.rs line 73). -/
structure ErrorCodeInst (E : Type) where
  error_code : E → Code
  toString : E → String

/-- Default trait method `ErrorCode::http_status` (error.rs lines 77-79). -/
def ErrorCodeInst.http_status {E : Type} (i : ErrorCodeInst E) (e : E) : StatusCode :=
  (i.error_code e).http

/-- Default trait method `ErrorCode::error_url` (error.rs lines 82-84). -/
def ErrorCodeInst.error_url {E : Type} (i : ErrorCodeInst E) (e : E) : String :=
  (i.error_code e).url

/-- Default trait method `ErrorCode::error_name` (error.rs lines 87-89). -/
def ErrorCodeInst.error_name {E : Type} (i : ErrorCodeInst E) (e : E) : String :=
  (i.error_code e).name

/-- Default trait method `ErrorCode::error_type` (error.rs lines 92-94). -/
def ErrorCodeInst.error_type {E : Type} (i : ErrorCodeInst E) (e : E) : String :=
  (i.error_code e).type_

/-- Embeds the blanket `impl From of T for ResponseError where T: ErrorCode`
(error.rs lines 47-60). -/
def ResponseError.fromError {E : Type} (i : ErrorCodeInst E) (e : E) : ResponseError :=
  { code := i.http_status e
    message := i.toString e
    error_code := i.error_name e
    error_type := i.error_type e
    error_link := i.error_url e }

/-- Serde serialization of a `ResponseError`, modelled as the ordered list
of JSON object fields it produces (all string-valued): `code` is skipped
(`serde(skip)`, error.rs line 15), `error_code` is renamed to `code`,
`error_type` to `type`, `error_link` to `link` (error.rs lines 19-24). -/
def ResponseError.serialize (r : ResponseError) : List (String × String) :=
  [("message", r.message), ("code", r.error_code),
   ("type", r.error_type), ("link", r.error_link)]

/-- The `Default` status assigned to a `serde(skip)`-ped `StatusCode` field
on deserialization: 200 OK. -/
def statusCodeDefault : StatusCode := 200

/-- Serde deserialization of a `ResponseError` from JSON object fields:
the four serialized fields are looked up by their wire names, and the
skipped `code` field is filled with its `Default` value. -/
def ResponseError.deserialize (fields : List (String × String)) : Option ResponseError :=
  match fields.lookup "message", fields.lookup "code",
        fields.lookup "type", fields.lookup "link" with
  | some m, some c, some t, some l =>
    some { code := statusCodeDefault, message := m,
           error_code := c, error_type := t, error_link := l }
  | _, _, _, _ => none

/-- User-caused faults of the storage/search engine, embedding the
`milli::UserError` variants matched in error.rs lines 389-413.  The
`milli` crate is external to this file; constructor payloads, which the
dispatch never inspects, are abstracted to plain values. -/
inductive UserError
  | SerdeJson (msg : String)
  | InvalidLmdbOpenOptions
  | DocumentLimitReached
  | AccessingSoftDeletedDocument (document_id : String)
  | UnknownInternalDocumentId (document_id : Nat)
  | InvalidStoreFile
  | NoSpaceLeftOnDevice
  | MaxDatabaseSizeReached
  | AttributeLimitReached
  | InvalidFilter (msg : String)
  | MissingDocumentId (document : String)
  | InvalidDocumentId (document_id : String)
  | TooManyDocumentIds (primary_key : String)
  | MissingPrimaryKey
  | PrimaryKeyCannotBeChanged (primary_key : String)
  | SortRankingRuleMissing
  | InvalidFacetsDistribution (invalid_facets_name : String)
  | InvalidSortableAttribute (field : String)
  | CriterionError (msg : String)
  | InvalidGeoField (document_id : String)
  | SortError (msg : String)
  | InvalidMinTypoWordLenSetting (one : Nat) (two : Nat)
deriving DecidableEq

/-- Storage/search-engine errors, embedding the `milli::Error` variants
matched in error.rs lines 383-386; wrapped payloads abstracted to strings. -/
inductive MilliError
  | InternalError (e : String)
  | IoError (e : String)
  | UserError (e : UserError)
deriving DecidableEq

/-- Embeds `impl ErrorCode for milli::Error`, the two-level dispatch of
error.rs lines 379-418, arm by arm in source order. -/
def MilliError.error_code : MilliError → Code
  | .InternalError _ => Code.Internal
  | .IoError _ => Code.Internal
  | .UserError e =>
    match e with
    | .SerdeJson _
    | .InvalidLmdbOpenOptions
    | .DocumentLimitReached
    | .AccessingSoftDeletedDocument _
    | .UnknownInternalDocumentId _ => Code.Internal
    | .InvalidStoreFile => Code.InvalidStore
    | .NoSpaceLeftOnDevice => Code.NoSpaceLeftOnDevice
    | .MaxDatabaseSizeReached => Code.DatabaseSizeLimitReached
    | .AttributeLimitReached => Code.MaxFieldsLimitExceeded
    | .InvalidFilter _ => Code.Filter
    | .MissingDocumentId _ => Code.MissingDocumentId
    | .InvalidDocumentId _ | .TooManyDocumentIds _ => Code.InvalidDocumentId
    | .MissingPrimaryKey => Code.MissingPrimaryKey
    | .PrimaryKeyCannotBeChanged _ => Code.PrimaryKeyAlreadyPresent
    | .SortRankingRuleMissing => Code.Sort_
    | .InvalidFacetsDistribution _ => Code.BadRequest
    | .InvalidSortableAttribute _ => Code.Sort_
    | .CriterionError _ => Code.InvalidRankingRule
    | .InvalidGeoField _ => Code.InvalidGeoField
    | .SortError _ => Code.Sort_
    | .InvalidMinTypoWordLenSetting _ _ => Code.InvalidMinWordLengthForTypo

/-- Low-level store faults, embedding heed's `MdbError` enumeration (the
`heed` crate is external to this file; the `Other` variant carries the raw
return code as in the source crate). -/
inductive MdbError
  | KeyExist
  | NotFound
  | PageNotFound
  | Corrupted
  | Panic
  | VersionMismatch
  | Invalid
  | MapFull
  | DbsFull
  | ReadersFull
  | TlsFull
  | TxnFull
  | CursorFull
  | PageFull
  | MapResized
  | Incompatible
  | BadRslot
  | BadTxn
  | BadValSize
  | BadDbi
  | Other (code : Int)
deriving DecidableEq

/-- Embedded key-value-store errors, embedding the `heed::Error` variants
matched in error.rs lines 425-431; the I/O payload abstracted to a string. -/
inductive HeedError
  | Io (e : String)
  | Mdb (e : MdbError)
  | Encoding
  | Decoding
  | InvalidDatabaseTyping
  | DatabaseClosing
  | BadOpenOptions
deriving DecidableEq

/-- Embeds `impl ErrorCode for HeedError` (error.rs lines 420-434), arm by
arm in source order: the two specific Mdb arms first, then the catch-all. -/
def HeedError.error_code : HeedError → Code
  | .Mdb .MapFull => Code.DatabaseSizeLimitReached
  | .Mdb .Invalid => Code.InvalidStore
  | .Io _
  | .Mdb _
  | .Encoding
  | .Decoding
  | .InvalidDatabaseTyping
  | .DatabaseClosing
  | .BadOpenOptions => Code.Internal

/-- The deserialization-builder error, embedding
`struct MeiliDeserError(String)` (error.rs line 437); `msg` is the single
tuple field. -/
structure MeiliDeserError where
  msg : String
deriving DecidableEq

/-- Embeds `impl ErrorCode for MeiliDeserError` (error.rs lines 445-449). -/
def MeiliDeserError.error_code (_ : MeiliDeserError) : Code := Code.MalformedPayload

/-- Location pointers into a JSON document, embedding deserr's
`ValuePointerRef` (the `deserr` crate is external to this file): the
document root, or a key/index step from an enclosing pointer. -/
inductive ValuePointerRef
  | origin
  | key (k : String) (prev : ValuePointerRef)
  | index (i : Nat) (prev : ValuePointerRef)
deriving DecidableEq

/-- Embeds deserr's `ValuePointerRef::is_origin`: true exactly at the
document root. -/
def ValuePointerRef.is_origin : ValuePointerRef → Bool
  | .origin => true
  | _ => false

/-- Modelled from the spec: the textual rendering of an owned location
pointer (`location.to_owned()` displayed), the structural path of the
offending value — deserr's `ValuePointer` Display is outside this
repository.  A single key under the root renders as that key (the spec's
example: unknown key under path `settings` renders as `settings`). -/
def ValuePointerRef.toOwnedDisplay : ValuePointerRef → String
  | .origin => ""
  | .key k .origin => k
  | .key k p => p.toOwnedDisplay ++ "." ++ k
  | .index i p => p.toOwnedDisplay ++ "[" ++ toString i ++ "]"

/-- Embeds `impl MergeWithError of MeiliDeserError for MeiliDeserError`
(error.rs lines 474-482): `Result of Self, Self` becomes `Except`, and the
body returns `Err(other)` unconditionally. -/
def MeiliDeserError.merge (_self_ : Option MeiliDeserError) (other : MeiliDeserError)
    (_merge_location : ValuePointerRef) : Except MeiliDeserError MeiliDeserError :=
  Except.error other

/-- Modelled from the spec: the view of a deserr value (`V: IntoValue`)
consumed by the error builder — the `deserr` and `serde_json` crates are
outside this repository.  `kind` is the displayed value-kind name
(`actual.kind()`), and `serialized` the best-effort serde_json
re-serialization of the value (`none` when re-serialization fails). -/
structure DeserrValue where
  kind : String
  serialized : Option String
deriving DecidableEq

/-- Structured parse-failure events, embedding deserr's `ErrorKind` as
consumed in error.rs lines 496-552; accepted value kinds and accepted
field names are modelled by their display strings. -/
inductive ErrorKind
  | IncorrectValueKind (actual : DeserrValue) (accepted : List String)
  | MissingField (field : String)
  | UnknownKey (key : String) (accepted : List String)
  | Unexpected (msg : String)
deriving DecidableEq

/-- The deserialization error builder, embedding
`impl DeserializeError for MeiliDeserError` (error.rs lines 484-554):
renders the location clause, then one fixed message template per event
kind, always returning `Err`. -/
def MeiliDeserError.error (_self_ : Option MeiliDeserError) (error : ErrorKind)
    (location : ValuePointerRef) : Except MeiliDeserError MeiliDeserError :=
  let location :=
    if location.is_origin then "."
    else " in `" ++ location.toOwnedDisplay ++ "`."
  match error with
  | .IncorrectValueKind actual accepted =>
    let expected :=
      match accepted with
      | [] => ""
      | [a] => ", expected a " ++ a
      | _ => ", expected one of " ++ String.intercalate ", " accepted
    let kind := actual.kind
    let received :=
      match actual.serialized with
      | some value => "`" ++ value ++ "`"
      | none => ""
    Except.error ⟨"Json deserialize error: invalid type: " ++ kind ++ " "
      ++ received ++ expected ++ location⟩
  | .MissingField field =>
    Except.error ⟨"Json deserialize error: missing field `" ++ field ++ "`" ++ location⟩
  | .UnknownKey k accepted =>
    Except.error ⟨"Json deserialize error: unknown field `" ++ k
      ++ "`, expected one of "
      ++ String.intercalate ", " (accepted.map (fun a => "`" ++ a ++ "`"))
      ++ location⟩
  | .Unexpected m =>
    Except.error ⟨"The json payload provided is malformed: " ++ m ++ location⟩

/-- Claim C1: the Code catalog lookup maps the five representative variants
exactly as documented — IndexNotFound to status 404, type invalid_request,
name "index_not_found"; DatabaseSizeLimitReached to 500, internal,
"database_size_limit_reached"; MissingMasterKey to 401, auth,
"missing_master_key"; InvalidToken to 403, auth, "invalid_api_key";
PayloadTooLarge to 413, invalid_request, "payload_too_large". -/
theorem claim_C1_representative_catalog_entries :
    (Code.IndexNotFound.http = 404 ∧ Code.IndexNotFound.type_ = "invalid_request"
      ∧ Code.IndexNotFound.name = "index_not_found")
    ∧ (Code.DatabaseSizeLimitReached.http = 500
      ∧ Code.DatabaseSizeLimitReached.type_ = "internal"
      ∧ Code.DatabaseSizeLimitReached.name = "database_size_limit_reached")
    ∧ (Code.MissingMasterKey.http = 401 ∧ Code.MissingMasterKey.type_ = "auth"
      ∧ Code.MissingMasterKey.name = "missing_master_key")
    ∧ (Code.InvalidToken.http = 403 ∧ Code.InvalidToken.type_ = "auth"
      ∧ Code.InvalidToken.name = "invalid_api_key")
    ∧ (Code.PayloadTooLarge.http = 413 ∧ Code.PayloadTooLarge.type_ = "invalid_request"
      ∧ Code.PayloadTooLarge.name = "payload_too_large") := by
  decide

/-- Claim C2: for every Code variant, `url` is the docs base
"https://docs.meilisearch.com/errors#" concatenated with its name; and
every ResponseError — built by `from_msg` or by the blanket conversion
from an ErrorCode-capable error — has `error_link` equal to the docs base
concatenated with its `error_code` field. -/
theorem claim_C2_link_is_docs_base_plus_name :
    (∀ c : Code, c.url = "https://docs.meilisearch.com/errors#" ++ c.name)
    ∧ (∀ (m : String) (c : Code),
        (ResponseError.from_msg m c).error_link
          = "https://docs.meilisearch.com/errors#" ++ (ResponseError.from_msg m c).error_code)
    ∧ (∀ (E : Type) (i : ErrorCodeInst E) (e : E),
        (ResponseError.fromError i e).error_link
          = "https://docs.meilisearch.com/errors#" ++ (ResponseError.fromError i e).error_code) :=
  ⟨fun _ => rfl, fun _ _ => rfl, fun _ _ _ => rfl⟩

/-- Claim C3: the storage/search-engine error mapping is a two-level
dispatch — every wrapped internal fault and every I/O fault maps to
Internal, and every user-caused fault maps per sub-kind as the spec's
table states, ending with invalid min-typo word-length setting mapping to
InvalidMinWordLengthForTypo. -/
theorem claim_C3_milli_error_mapping :
    (∀ s, MilliError.error_code (.InternalError s) = Code.Internal)
    ∧ (∀ s, MilliError.error_code (.IoError s) = Code.Internal)
    ∧ (∀ s, MilliError.error_code (.UserError (.SerdeJson s)) = Code.Internal)
    ∧ MilliError.error_code (.UserError .InvalidLmdbOpenOptions) = Code.Internal
    ∧ MilliError.error_code (.UserError .DocumentLimitReached) = Code.Internal
    ∧ (∀ d, MilliError.error_code (.UserError (.AccessingSoftDeletedDocument d)) = Code.Internal)
    ∧ (∀ d, MilliError.error_code (.UserError (.UnknownInternalDocumentId d)) = Code.Internal)
    ∧ MilliError.error_code (.UserError .InvalidStoreFile) = Code.InvalidStore
    ∧ MilliError.error_code (.UserError .NoSpaceLeftOnDevice) = Code.NoSpaceLeftOnDevice
    ∧ MilliError.error_code (.UserError .MaxDatabaseSizeReached) = Code.DatabaseSizeLimitReached
    ∧ MilliError.error_code (.UserError .AttributeLimitReached) = Code.MaxFieldsLimitExceeded
    ∧ (∀ s, MilliError.error_code (.UserError (.InvalidFilter s)) = Code.Filter)
    ∧ (∀ d, MilliError.error_code (.UserError (.MissingDocumentId d)) = Code.MissingDocumentId)
    ∧ (∀ d, MilliError.error_code (.UserError (.InvalidDocumentId d)) = Code.InvalidDocumentId)
    ∧ (∀ p, MilliError.error_code (.UserError (.TooManyDocumentIds p)) = Code.InvalidDocumentId)
    ∧ MilliError.error_code (.UserError .MissingPrimaryKey) = Code.MissingPrimaryKey
    ∧ (∀ p, MilliError.error_code (.UserError (.PrimaryKeyCannotBeChanged p))
        = Code.PrimaryKeyAlreadyPresent)
    ∧ MilliError.error_code (.UserError .SortRankingRuleMissing) = Code.Sort_
    ∧ (∀ f, MilliError.error_code (.UserError (.InvalidSortableAttribute f)) = Code.Sort_)
    ∧ (∀ s, MilliError.error_code (.UserError (.SortError s)) = Code.Sort_)
    ∧ (∀ f, MilliError.error_code (.UserError (.InvalidFacetsDistribution f)) = Code.BadRequest)
    ∧ (∀ s, MilliError.error_code (.UserError (.CriterionError s)) = Code.InvalidRankingRule)
    ∧ (∀ d, MilliError.error_code (.UserError (.InvalidGeoField d)) = Code.InvalidGeoField)
    ∧ (∀ a b, MilliError.error_code (.UserError (.InvalidMinTypoWordLenSetting a b))
        = Code.InvalidMinWordLengthForTypo) := by
  and_intros <;> intros <;> rfl

/-- Claim C4: the embedded key-value-store mapping sends "map full" to
DatabaseSizeLimitReached, "invalid" to InvalidStore, and every other
sub-kind — I/O, any other generic store fault, encoding, decoding,
invalid database typing, database closing, bad open options — to
Internal. -/
theorem claim_C4_heed_error_mapping :
    (∀ m : MdbError,
      HeedError.error_code (.Mdb m)
        = if m = .MapFull then Code.DatabaseSizeLimitReached
          else if m = .Invalid then Code.InvalidStore
          else Code.Internal)
    ∧ (∀ s, HeedError.error_code (.Io s) = Code.Internal)
    ∧ HeedError.error_code .Encoding = Code.Internal
    ∧ HeedError.error_code .Decoding = Code.Internal
    ∧ HeedError.error_code .InvalidDatabaseTyping = Code.Internal
    ∧ HeedError.error_code .DatabaseClosing = Code.Internal
    ∧ HeedError.error_code .BadOpenOptions = Code.Internal := by
  refine ⟨fun m => ?_, fun _ => rfl, rfl, rfl, rfl, rfl, rfl⟩
  cases m <;> rfl

/-- Claim C5: serializing any ResponseError produces exactly the four
fields named message, code, type and link — the internal error_code,
error_type and error_link fields renamed, the HTTP status omitted — and
decoding that output yields a ResponseError whose message, error_code,
error_type and error_link strings equal the original's. -/
theorem claim_C5_serialization_round_trip :
    ∀ r : ResponseError,
      r.serialize.map Prod.fst = ["message", "code", "type", "link"]
      ∧ ∃ r2 : ResponseError,
          ResponseError.deserialize r.serialize = some r2
          ∧ r2.message = r.message ∧ r2.error_code = r.error_code
          ∧ r2.error_type = r.error_type ∧ r2.error_link = r.error_link := by
  intro r
  exact ⟨rfl, { r with code := statusCodeDefault }, rfl, rfl, rfl, rfl, rfl⟩

/-- Claim C6: merging any two deserialization-builder errors always
returns the second (right-hand) error unchanged, for every value of the
first error (including absent) and every merge location. -/
theorem claim_C6_merge_last_error_wins :
    ∀ (s : Option MeiliDeserError) (other : MeiliDeserError) (loc : ValuePointerRef),
      MeiliDeserError.merge s other loc = Except.error other :=
  fun _ _ _ => rfl

/-- Claim C7: every missing-field event with field name f produces exactly
the message "Json deserialize error: missing field `f`" followed by the
location clause — "." at the document root, " in `path`." otherwise — and
in particular missing field "id" at the root yields exactly
"Json deserialize error: missing field `id`.". -/
theorem claim_C7_missing_field_message :
    (∀ (s : Option MeiliDeserError) (f : String) (loc : ValuePointerRef),
      MeiliDeserError.error s (.MissingField f) loc
        = Except.error ⟨"Json deserialize error: missing field `" ++ f ++ "`"
            ++ (if loc.is_origin then "." else " in `" ++ loc.toOwnedDisplay ++ "`.")⟩)
    ∧ MeiliDeserError.error none (.MissingField "id") .origin
        = Except.error ⟨"Json deserialize error: missing field `id`."⟩ :=
  ⟨fun _ _ _ => rfl, rfl⟩

/-- Claim C8: TaskDeletionWithEmptyQuery and TaskCancelationWithEmptyQuery
are two distinct Code variants whose catalog lookups produce the identical
stable name "missing_task_filters", the same status 400 and the same type
invalid_request. -/
theorem claim_C8_missing_task_filters_alias :
    Code.TaskDeletionWithEmptyQuery ≠ Code.TaskCancelationWithEmptyQuery
    ∧ Code.TaskDeletionWithEmptyQuery.name = "missing_task_filters"
    ∧ Code.TaskCancelationWithEmptyQuery.name = "missing_task_filters"
    ∧ Code.TaskDeletionWithEmptyQuery.http = 400
    ∧ Code.TaskCancelationWithEmptyQuery.http = 400
    ∧ Code.TaskDeletionWithEmptyQuery.type_ = "invalid_request"
    ∧ Code.TaskCancelationWithEmptyQuery.type_ = "invalid_request" := by
  decide

/-- Claim C9: the two ResponseError construction paths agree — for every
ErrorCode-capable error, the automatic conversion yields exactly the same
ResponseError (same status, message, error_code, error_type, error_link)
as from_msg applied to its textual rendering and its reported Code. -/
theorem claim_C9_construction_paths_agree :
    ∀ (E : Type) (i : ErrorCodeInst E) (e : E),
      ResponseError.fromError i e
        = ResponseError.from_msg (i.toString e) (i.error_code e) :=
  fun _ _ _ => rfl

/-- Claim C10: the error-type classification "internal" does not imply a
5xx HTTP status — RetrieveDocument (name "unretrievable_document") and
SearchDocuments (name "search_error") both have catalog type "internal"
but HTTP status 400. -/
theorem claim_C10_internal_type_with_400_status :
    Code.RetrieveDocument.type_ = "internal"
    ∧ Code.RetrieveDocument.http = 400
    ∧ Code.RetrieveDocument.name = "unretrievable_document"
    ∧ Code.SearchDocuments.type_ = "internal"
    ∧ Code.SearchDocuments.http = 400
    ∧ Code.SearchDocuments.name = "search_error" := by
  decide

end Meili
